import Mathlib

/-!
  # Verification of the quantum-core provider-proxy decision core

  A shallow embedding of the stock-data proxy slice: the health classifier
  (`ProxyStatus`, `classify`), the AlphaVantage provider adapter
  (`retrieveStockData`, `retrieveIntraDayData`, `retrieveDailyData`), the
  job-log ledger, and the router (`dispatch`). Effectful code is modelled by
  explicit state passing over a `World` record that traces ledger rows,
  ledger-update calls, external-fetch attempts, bar-save attempts and log
  lines; external I/O outcomes are supplied through a `FetchEnv` record.
  Types and functions whose defining file is part of the repository but not
  available here are modelled from the design document and carry a doc
  comment beginning `Modelled from the spec:`.
-/

/-- Status of a proxy based on previous API calls, from
`proxies/proxy/data.proxy.interface.ts` (Sunny = 100%, Cloudy = 75%-100%,
Raining = 25%-75%, ThunderStorm = 1%-25%, Eclipse = 0%, plus Unknown). -/
inductive ProxyStatus where
  | Sunny
  | Cloudy
  | Raining
  | ThunderStorm
  | Eclipse
  | Unknown
deriving DecidableEq, Repr

/-- Modelled from the spec: the health classifier (section 4.1) lives in the
proxy base service, which is not under `src/`; only its contract and the band
comment on `ProxyStatus` are available. An undefined hit-rate maps to
`Unknown`; otherwise the first matching band from the top wins, each band
closed on its lower end. Hit-rates are modelled as rationals. -/
def classify : Option ℚ → ProxyStatus
  | none => ProxyStatus.Unknown
  | some h =>
      if h = 1 then ProxyStatus.Sunny
      else if (0.75 : ℚ) ≤ h then ProxyStatus.Cloudy
      else if (0.25 : ℚ) ≤ h then ProxyStatus.Raining
      else if (0.01 : ℚ) ≤ h then ProxyStatus.ThunderStorm
      else ProxyStatus.Eclipse

/-- A ledger row, from `ProxyJobLog`: provider name, request URL, HTTP-like
status code and message, keyed by the job id (`number | null` in the source,
hence `Option Int`). A row whose `statusCode` is `none` has been created but
not yet finalized. -/
structure ProxyJobLog where
  jobId : Option Int
  proxyName : String
  url : String
  statusCode : Option Nat
  message : String
deriving DecidableEq, Repr

/-- API statistics of a proxy, from `ProxyAPIStats` in
`data.proxy.interface.ts`: the classified status and the raw hit-rate
(`number | undefined`, hence `Option ℚ`). -/
structure ProxyAPIStats where
  status : ProxyStatus
  api_hit_rate : Option ℚ
deriving DecidableEq, Repr

/-- Modelled from the spec: `StockDataBar` is declared in
`common/interfaces/data.interface.ts`, which is not under `src/`; the adapter
code consumes only the count of bars, so the field shape is irrelevant and a
single opaque payload stands for the OHLCV record. -/
structure StockDataBar where
  payload : Nat
deriving DecidableEq, Repr

namespace IntervalEnum

/-- Modelled from the spec: the numeric value of `IntervalEnum.ONE_DAY`; the
declaring file is not under `src/`. Claims compare intervals only for
equality with this constant and for membership in the intraday set, so the
concrete value is immaterial. -/
def ONE_DAY : Nat := 1440

end IntervalEnum

namespace HttpStatus

/-- HTTP 200, the NestJS `HttpStatus.OK` used on ledger success rows. -/
def OK : Nat := 200

/-- HTTP 400, the NestJS `HttpStatus.BAD_REQUEST` used for client errors. -/
def BAD_REQUEST : Nat := 400

/-- HTTP 500, the NestJS `HttpStatus.INTERNAL_SERVER_ERROR` used for
provider errors. -/
def INTERNAL_SERVER_ERROR : Nat := 500

end HttpStatus

/-- JavaScript `String.prototype.startsWith`, modelled over the character
list of the string. -/
def jsStartsWith (s p : String) : Bool := p.toList.isPrefixOf s.toList

/-- An error surfaced by the adapter: a plain `new Error(msg)` (whose
JavaScript `toString` is `"Error: " ++ msg`) or a NestJS
`HttpException(msg, status)`. -/
inductive ThrownError where
  | plain (msg : String)
  | http (msg : String) (status : Nat)
deriving DecidableEq, Repr

/-- The JavaScript `toString()` of a thrown error: a plain `Error` prints its
class name followed by the message. -/
def ThrownError.errText : ThrownError → String
  | .plain m => String.append "Error: " m
  | .http m _ => m

/-- Whether an error is caller-attributable: a plain `Error` whose text
carries the literal `Error:` discrimination marker used by the adapter's
catch blocks, or an `HttpException` in the 4xx range. -/
def ThrownError.clientAttributable : ThrownError → Bool
  | .plain m => jsStartsWith (String.append "Error: " m) "Error:"
  | .http _ s => decide (400 ≤ s ∧ s < 500)

/-- The retrieval request, from `StockDataRetrievalJobDto`: symbol, exchange
and numeric interval. The job id travels as a separate argument in the
adapter, mirroring the source signatures. -/
structure StockDataRetrievalJobDto where
  symbol : String
  exchange : String
  interval : Nat
deriving DecidableEq, Repr

/-- The job-result view, from `StockDataRetrievalJobResponseDto`: its
constructor takes the (possibly null) ledger row read back by
`findProxyJobLogById`. -/
structure StockDataRetrievalJobResponseDto where
  jobLog : Option ProxyJobLog
deriving DecidableEq, Repr

/-- Modelled from the spec: `IDataProxyConfig` is imported by the adapter
but its declaration is not under `src/`. Per section 3 (Capability
Descriptor) it holds the supported-exchange set, the supported-intraday
interval set and a daily-support flag; the adapter code under `src/` reads
only `openExchanges` and `intraDayIntervals`, through optional chaining,
hence the `Option` wrappers. -/
structure IDataProxyConfig where
  openExchanges : Option (List String)
  intraDayIntervals : Option (List Nat)
  dailySupported : Bool
deriving DecidableEq, Repr

/-- TypeScript `cfg?.field?.includes(x)` over a possibly-undefined list:
`false` when the list is undefined. -/
def optIncludes {α : Type} [BEq α] (xs : Option (List α)) (x : α) : Bool :=
  match xs with
  | none => false
  | some l => l.contains x

/-- The provider name set in the `AlphaVantageService` constructor. -/
def PROXY_NAME : String := "AlphaVantage"

/-- The kind of external fetch attempted, daily or intraday. -/
inductive FetchKind where
  | daily
  | intraday
deriving DecidableEq, Repr

/-- A recorded external-fetch attempt: which vendor endpoint, at which URL. -/
structure FetchCall where
  kind : FetchKind
  url : String
deriving DecidableEq, Repr

/-- A recorded bar-save attempt against the Bar Store
(`saveStockDataToDb`). -/
structure SaveCall where
  symbol : String
  exchange : String
  interval : Nat
  bars : List StockDataBar
deriving DecidableEq, Repr

/-- The observable state threaded through the adapter and router: the ledger
rows (newest first; an update-in-place is modelled as a prepended row that
shadows older rows with the same job id), the trace of `updateProxyJobLog`
calls, the trace of external-fetch attempts, the trace of bar-save attempts,
and the log lines. -/
structure World where
  rows : List ProxyJobLog
  updateCalls : List ProxyJobLog
  fetchCalls : List FetchCall
  saveCalls : List SaveCall
  logs : List String
deriving DecidableEq, Repr

/-- The outcome of an external vendor call: a bar sequence, or a rejection
carrying the JavaScript `error.toString()` text. -/
inductive FetchOutcome where
  | ok (bars : List StockDataBar)
  | err (errStr : String)
deriving DecidableEq, Repr

/-- The environment of externally supplied I/O outcomes for one run: the
vendor's intraday and daily responses, whether the Bar Store save succeeds,
and whether the vendor health endpoint is up. -/
structure FetchEnv where
  intraDayOutcome : FetchOutcome
  dailyOutcome : FetchOutcome
  saveOk : Bool
  healthUp : Bool
deriving DecidableEq, Repr

/-- The ledger update `proxyJobLogService.updateProxyJobLog(jobId, name,
url, code, msg)`: writes the terminal row for the job id and is traced in
`updateCalls`. -/
def updateProxyJobLog (jobId : Option Int) (name url : String) (code : Nat)
    (msg : String) (w : World) : World :=
  let row : ProxyJobLog := ⟨jobId, name, url, some code, msg⟩
  { w with rows := row :: w.rows, updateCalls := row :: w.updateCalls }

/-- The ledger read `proxyJobLogService.findProxyJobLogById(jobId)`: the most
recent row for the job id, if any. -/
def findProxyJobLogById (jobId : Option Int) (w : World) : Option ProxyJobLog :=
  w.rows.find? (fun r => r.jobId == jobId)

/-- Append a log line (the `Logger` calls of the source). -/
def logLine (s : String) (w : World) : World :=
  { w with logs := s :: w.logs }

/-- Modelled from the spec: `DataProxyService.saveStockDataToDb` (the proxy
base service) is not under `src/`; per sections 2 and 4.3 it persists the
fetched bars to the Bar Store. The attempt is traced; its success or failure
comes from the environment and is returned so the caller can attach its
fire-and-forget logging. -/
def saveStockDataToDb (env : FetchEnv) (symbol exchange : String)
    (interval : Nat) (bars : List StockDataBar) (w : World) : Bool × World :=
  (env.saveOk, { w with saveCalls := ⟨symbol, exchange, interval, bars⟩ :: w.saveCalls })

/-- Modelled from the spec: `alphaVantageExchange` maps the request exchange
to the vendor's exchange token; its declaring file is not under `src/`. The
spec requires only that the URL be deterministic in the request, so the map
is the identity. -/
def alphaVantageExchange (e : String) : String := e

/-- Modelled from the spec: `alphaVantageInterval` maps the numeric interval
to the vendor's interval token; its declaring file is not under `src/`. The
spec requires only determinism, so the map renders the number. -/
def alphaVantageInterval (i : Nat) : String := toString i

/-- Modelled from the spec: `AlphaVantageAPI.getIntraDayDataUrl` is not under
`src/`; section 4.3 step (3) requires the URL be a deterministic function of
symbol, exchange, interval and static config. -/
def getIntraDayDataUrl (s e i : String) : String :=
  s!"alphavantage/intraday?symbol={s}&exchange={e}&interval={i}"

/-- Modelled from the spec: `AlphaVantageAPI.getDailyDataUrl` is not under
`src/`; same determinism contract as the intraday URL. -/
def getDailyDataUrl (s e i : String) : String :=
  s!"alphavantage/daily?symbol={s}&exchange={e}&interval={i}"

/-- The intraday request URL computed by `retrieveIntraDayData` for a
request. -/
def intraDayUrl (dto : StockDataRetrievalJobDto) : String :=
  getIntraDayDataUrl dto.symbol (alphaVantageExchange dto.exchange)
    (alphaVantageInterval dto.interval)

/-- The daily request URL computed by `retrieveDailyData` for a request. -/
def dailyUrl (dto : StockDataRetrievalJobDto) : String :=
  getDailyDataUrl dto.symbol (alphaVantageExchange dto.exchange)
    (alphaVantageInterval dto.interval)

/-- The intraday retrieval path of `AlphaVantageService.retrieveIntraDayData`:
compute the URL, attempt the vendor fetch; on success, fire-and-forget the
bar save (its outcome only logged), finalize the ledger row with `OK` and a
`DataSize=` message, then read the row back and return the response view
built from it; on failure, discriminate client vs provider error by the
`Error:` text marker, finalize the ledger row with the matching status, and
re-raise an `HttpException` with that status. -/
def retrieveIntraDayData (env : FetchEnv) (dto : StockDataRetrievalJobDto)
    (jobId : Option Int) (w : World) :
    Except ThrownError StockDataRetrievalJobResponseDto × World :=
  let url := intraDayUrl dto
  let w := { w with fetchCalls := ⟨FetchKind.intraday, url⟩ :: w.fetchCalls }
  match env.intraDayOutcome with
  | FetchOutcome.ok data =>
      let saved := saveStockDataToDb env dto.symbol dto.exchange dto.interval data w
      let w := if saved.1 then
          logLine "AlphaVantageService : saveIntraDayDataToDb: success" saved.2
        else
          logLine "AlphaVantageService : saveIntraDayDataToDb: failed" saved.2
      let n := data.length
      let w := updateProxyJobLog jobId PROXY_NAME url HttpStatus.OK s!"DataSize={n}" w
      (Except.ok ⟨findProxyJobLogById jobId w⟩, w)
  | FetchOutcome.err e =>
      if jsStartsWith e "Error:" then
        let w := updateProxyJobLog jobId PROXY_NAME url HttpStatus.BAD_REQUEST e w
        (Except.error (ThrownError.http e HttpStatus.BAD_REQUEST), w)
      else
        let w := updateProxyJobLog jobId PROXY_NAME url HttpStatus.INTERNAL_SERVER_ERROR e w
        (Except.error (ThrownError.http e HttpStatus.INTERNAL_SERVER_ERROR), w)

/-- The daily retrieval path of `AlphaVantageService.retrieveDailyData`:
structurally identical to the intraday path, against the daily vendor
endpoint and URL. -/
def retrieveDailyData (env : FetchEnv) (dto : StockDataRetrievalJobDto)
    (jobId : Option Int) (w : World) :
    Except ThrownError StockDataRetrievalJobResponseDto × World :=
  let url := dailyUrl dto
  let w := { w with fetchCalls := ⟨FetchKind.daily, url⟩ :: w.fetchCalls }
  match env.dailyOutcome with
  | FetchOutcome.ok data =>
      let saved := saveStockDataToDb env dto.symbol dto.exchange dto.interval data w
      let w := if saved.1 then
          logLine "AlphaVantageService : saveDailyDataToDb: success" saved.2
        else
          logLine "AlphaVantageService : saveDailyDataToDb: failed" saved.2
      let n := data.length
      let w := updateProxyJobLog jobId PROXY_NAME url HttpStatus.OK s!"DataSize={n}" w
      (Except.ok ⟨findProxyJobLogById jobId w⟩, w)
  | FetchOutcome.err e =>
      if jsStartsWith e "Error:" then
        let w := updateProxyJobLog jobId PROXY_NAME url HttpStatus.BAD_REQUEST e w
        (Except.error (ThrownError.http e HttpStatus.BAD_REQUEST), w)
      else
        let w := updateProxyJobLog jobId PROXY_NAME url HttpStatus.INTERNAL_SERVER_ERROR e w
        (Except.error (ThrownError.http e HttpStatus.INTERNAL_SERVER_ERROR), w)

/-- The message of the plain `Error` thrown by `retrieveStockData` on an
unsupported exchange. -/
def invalidExchangeMsg (e : String) : String :=
  s!"AlphaVantageService : retrieveStockData : Invalid exchange={e}"

/-- The message of the plain `Error` thrown by `retrieveStockData` on an
unsupported interval. -/
def invalidIntervalMsg (i : Nat) : String :=
  s!"AlphaVantageService : retrieveStockData : Invalid interval={i}"

/-- The admissibility gate and path selection of
`AlphaVantageService.retrieveStockData`: the exchange must be in the
config's open-exchange set; then a `ONE_DAY` interval routes to the daily
path, an interval in the config's intraday set routes to the intraday path,
and anything else is an invalid-interval `Error`; a failing exchange check is
an invalid-exchange `Error`, the interval never examined. -/
def retrieveStockData (env : FetchEnv) (cfg : IDataProxyConfig)
    (dto : StockDataRetrievalJobDto) (jobId : Option Int) (w : World) :
    Except ThrownError StockDataRetrievalJobResponseDto × World :=
  if optIncludes cfg.openExchanges dto.exchange then
    if dto.interval = IntervalEnum.ONE_DAY then
      retrieveDailyData env dto jobId w
    else if optIncludes cfg.intraDayIntervals dto.interval then
      retrieveIntraDayData env dto jobId w
    else
      (Except.error (ThrownError.plain (invalidIntervalMsg dto.interval)), w)
  else
    (Except.error (ThrownError.plain (invalidExchangeMsg dto.exchange)), w)

/-- The spec's admissibility predicate (sections 3 and 8), written from the
spec's words for comparison against `retrieveStockData`: the exchange is in
the supported set, and either the interval is `ONE_DAY` with daily bars
supported, or the interval is in the supported-intraday set. -/
def is_admissible (cfg : IDataProxyConfig) (dto : StockDataRetrievalJobDto) : Bool :=
  optIncludes cfg.openExchanges dto.exchange &&
    ((decide (dto.interval = IntervalEnum.ONE_DAY) && cfg.dailySupported) ||
      optIncludes cfg.intraDayIntervals dto.interval)

/-- Whether a retrieval result is a rejection carrying a
caller-attributable error. -/
def rejectedWithClientError
    (r : Except ThrownError StockDataRetrievalJobResponseDto) : Bool :=
  match r with
  | Except.error e => e.clientAttributable
  | Except.ok _ => false

/-- Modelled from the spec: the Router classifies an error surfaced by the
adapter into a 4xx or 5xx status code (section 7); for an `HttpException`
the code travels with the error, for a plain `Error` the `Error:` text
marker makes it caller-attributable. -/
def classifyErrorCode (e : ThrownError) : Nat :=
  match e with
  | ThrownError.plain _ =>
      if jsStartsWith e.errText "Error:" then HttpStatus.BAD_REQUEST
      else HttpStatus.INTERNAL_SERVER_ERROR
  | ThrownError.http _ s => s

/-- The ledger-row creation done by the Router before dispatching: a row for
the job id with no terminal status yet (spec section 6, `create`). -/
def createJobRow (jobId : Option Int) (name : String) (w : World) : World :=
  { w with rows := ⟨jobId, name, "", none, ""⟩ :: w.rows }

/-- Whether the most recent ledger row for a job id carries a terminal
status code. -/
def isFinalized (jobId : Option Int) (w : World) : Bool :=
  match findProxyJobLogById jobId w with
  | some r => r.statusCode.isSome
  | none => false

/-- The result the Router hands to its caller: the job-result view read back
from the ledger, plus the classified error when the retrieval failed. -/
structure RetrievalJobResult where
  view : StockDataRetrievalJobResponseDto
  raised : Option ThrownError
deriving DecidableEq, Repr

/-- Modelled from the spec: the Router/Dispatcher (section 4.4) is not under
`src/`. It pre-creates the ledger row for the job id, invokes
`retrieveStockData`, and on an error records the classified outcome in the
ledger when the adapter has not already finalized the row (sections 4.4, 7
and the one-terminal-update invariant of section 3 jointly require the row
to end finalized exactly once); on either outcome the result view returned
to the caller is read back from the ledger. -/
def dispatch (env : FetchEnv) (cfg : IDataProxyConfig)
    (dto : StockDataRetrievalJobDto) (jobId : Option Int) (w : World) :
    RetrievalJobResult × World :=
  let w := createJobRow jobId PROXY_NAME w
  match retrieveStockData env cfg dto jobId w with
  | (Except.ok r, w) => (⟨r, none⟩, w)
  | (Except.error e, w) =>
      let w := if isFinalized jobId w then w
        else updateProxyJobLog jobId PROXY_NAME "" (classifyErrorCode e) e.errText w
      (⟨⟨findProxyJobLogById jobId w⟩, some e⟩, w)

/-- The number of terminal ledger updates performed so far for a job id:
the `updateProxyJobLog` calls traced for that id. -/
def finalizeCount (jobId : Option Int) (w : World) : Nat :=
  (w.updateCalls.filter (fun r => r.jobId == jobId)).length

/-- Modelled from the spec: the hit-rate computation of the stats refresh
(section 4.3, `get_stats`) is not under `src/`; the hit-rate is the fraction
of successful attempts among the recent ledger rows for the provider, and is
undefined when the trailing window has zero attempts. -/
def computeHitRate (entries : List ProxyJobLog) : Option ℚ :=
  if entries.isEmpty then none
  else
    some (((entries.filter (fun r => r.statusCode == some HttpStatus.OK)).length : ℚ)
      / (entries.length : ℚ))

/-- Modelled from the spec: `fetchAPIStats` recomputes the API statistics
from the recent ledger rows — the hit-rate and its classification. -/
def fetchAPIStats (entries : List ProxyJobLog) : ProxyAPIStats :=
  let h := computeHitRate entries
  ⟨classify h, h⟩

/-- A vendor health snapshot, reporting whether the external source is up. -/
structure HealthSnapshot where
  up : Bool
deriving DecidableEq, Repr

/-- Modelled from the spec: `AlphaVantageAPI.getHealth` is not under `src/`;
per sections 4.3 and 7 the health check reports failures in the returned
snapshot and never throws, so it is total in the environment's health bit. -/
def getHealth (env : FetchEnv) : HealthSnapshot := ⟨env.healthUp⟩

/-- `AlphaVantageService.pingProxyHealth` forwards the vendor health check
verbatim: `return await this._alphaVantageAPI.getHealth()`. -/
def pingProxyHealth (env : FetchEnv) : Except ThrownError HealthSnapshot :=
  Except.ok (getHealth env)

/-- Sample fixtures used by the concrete witnesses below. -/
def w0 : World := ⟨[], [], [], [], []⟩

/-- A sample AlphaVantage-style capability descriptor with daily support. -/
def sampleCfg : IDataProxyConfig := ⟨some ["NSE", "BSE"], some [1, 5, 15, 30, 60], true⟩

/-- A sample retrieval request for a supported exchange and intraday interval. -/
def sampleDto : StockDataRetrievalJobDto := ⟨"AAPL", "NSE", 5⟩

/-- A sample bar batch returned by a successful vendor fetch. -/
def sampleBars : List StockDataBar := [⟨1⟩, ⟨2⟩]

/-- A sample environment whose vendor calls succeed. -/
def sampleEnvOk : FetchEnv := ⟨FetchOutcome.ok sampleBars, FetchOutcome.ok sampleBars, true, true⟩

/-- C2: the health classifier is a total function whose five bands partition
the hit-rate domain `[0,1]` with no gap and no overlap, each band closed on
its lower end: values below `0.01` (including exactly `0`) are `Eclipse`,
`[0.01, 0.25)` is `ThunderStorm`, `[0.25, 0.75)` is `Raining`,
`[0.75, 1)` is `Cloudy`, and exactly `1` is `Sunny`. -/
theorem classify_bands_partition (h : ℚ) (h0 : 0 ≤ h) (h1 : h ≤ 1) :
    (classify (some h) = ProxyStatus.Eclipse ↔ h < 0.01) ∧
    (classify (some h) = ProxyStatus.ThunderStorm ↔ 0.01 ≤ h ∧ h < 0.25) ∧
    (classify (some h) = ProxyStatus.Raining ↔ 0.25 ≤ h ∧ h < 0.75) ∧
    (classify (some h) = ProxyStatus.Cloudy ↔ 0.75 ≤ h ∧ h < 1) ∧
    (classify (some h) = ProxyStatus.Sunny ↔ h = 1) := by
  simp only [classify]
  split_ifs with hs hc hr ht <;>
    refine ⟨?_, ?_, ?_, ?_, ?_⟩ <;> simp <;> norm_num at * <;>
      first
        | assumption
        | linarith
        | exact lt_of_le_of_ne h1 hs
        | (intro hx; linarith)
        | (constructor <;> first | linarith | exact lt_of_le_of_ne h1 hs)

/-- C2 witness: the boundary value `0.75` is classified `Cloudy`. -/
theorem classify_bands_partition_witness :
    classify (some (0.75 : ℚ)) = ProxyStatus.Cloudy :=
  (classify_bands_partition 0.75 (by norm_num) (by norm_num)).2.2.2.1.mpr
    (by norm_num)

/-- C8: an undefined hit-rate classifies to `Unknown`, and the stats of a
provider with zero attempts in the trailing window carry an undefined
hit-rate and status `Unknown` — never `Eclipse`. -/
theorem zero_attempts_unknown :
    classify none = ProxyStatus.Unknown ∧
    (fetchAPIStats []).status = ProxyStatus.Unknown ∧
    (fetchAPIStats []).status ≠ ProxyStatus.Eclipse ∧
    (fetchAPIStats []).api_hit_rate = none :=
  ⟨rfl, rfl, by decide, rfl⟩

/-- C9: the health ping never raises: for every outcome of the vendor health
check it returns a snapshot, and the snapshot reports that outcome. -/
theorem pingProxyHealth_never_raises (env : FetchEnv) :
    pingProxyHealth env = Except.ok (getHealth env) ∧
    (getHealth env).up = env.healthUp :=
  ⟨rfl, rfl⟩

/-- The success message written to the ledger, carrying the bar count. -/
def dataSizeMsg (n : Nat) : String := s!"DataSize={n}"

/-- The status code chosen by the adapter's catch block for an error text:
`BAD_REQUEST` when the text carries the `Error:` marker, otherwise
`INTERNAL_SERVER_ERROR`. -/
def errCode (e : String) : Nat :=
  if jsStartsWith e "Error:" then HttpStatus.BAD_REQUEST
  else HttpStatus.INTERNAL_SERVER_ERROR

/-- The ledger row written by a successful intraday retrieval. -/
def intraOkRow (dto : StockDataRetrievalJobDto) (jobId : Option Int)
    (bars : List StockDataBar) : ProxyJobLog :=
  ⟨jobId, PROXY_NAME, intraDayUrl dto, some HttpStatus.OK, dataSizeMsg bars.length⟩

/-- The ledger row written by a successful daily retrieval. -/
def dailyOkRow (dto : StockDataRetrievalJobDto) (jobId : Option Int)
    (bars : List StockDataBar) : ProxyJobLog :=
  ⟨jobId, PROXY_NAME, dailyUrl dto, some HttpStatus.OK, dataSizeMsg bars.length⟩

/-- The ledger row written by a failed intraday retrieval. -/
def intraErrRow (dto : StockDataRetrievalJobDto) (jobId : Option Int)
    (e : String) : ProxyJobLog :=
  ⟨jobId, PROXY_NAME, intraDayUrl dto, some (errCode e), e⟩

/-- The ledger row written by a failed daily retrieval. -/
def dailyErrRow (dto : StockDataRetrievalJobDto) (jobId : Option Int)
    (e : String) : ProxyJobLog :=
  ⟨jobId, PROXY_NAME, dailyUrl dto, some (errCode e), e⟩

/-- The interpolated success message is the `DataSize=` marker followed by
the rendered count. -/
lemma dataSizeMsg_eq (n : Nat) : dataSizeMsg n = "DataSize=" ++ toString n := by
  show "DataSize=" ++ toString n ++ "" = "DataSize=" ++ toString n
  rw [String.append_empty]

/-- Every plain `Error` text carries the `Error:` marker: the marker is a
prefix of the `Error: ` rendering prepended by JavaScript `toString`. -/
lemma plain_error_marker (m : String) :
    jsStartsWith (String.append "Error: " m) "Error:" = true := by
  have h1 : ("Error:".toList) <+: ("Error: ".toList) := by decide
  have h2 : ("Error: ".toList) <+: ("Error: ".toList ++ m.toList) :=
    List.prefix_append _ _
  have h3 : ("Error:".toList) <+: ((String.append "Error: " m).toList) := by
    show ("Error:".toList) <+: (("Error: " ++ m).data)
    rw [String.data_append]
    exact h1.trans h2
  unfold jsStartsWith
  exact List.isPrefixOf_iff_prefix.mpr h3

/-- A plain `Error` is always caller-attributable under the text-marker
discrimination. -/
lemma plain_clientAttributable (m : String) :
    (ThrownError.plain m).clientAttributable = true :=
  plain_error_marker m

/-- A rejection carrying a plain `Error` counts as a client rejection. -/
lemma rejectedWithClientError_plain (m : String) :
    rejectedWithClientError (Except.error (ThrownError.plain m)) = true := by
  simp [rejectedWithClientError, plain_clientAttributable]

/-- Characterization of a successful intraday retrieval: the response view
is the freshly finalized `OK` row read back from the ledger, and the world
gains one fetch attempt, one save attempt, one log line for the save
outcome, and one ledger update. -/
lemma retrieveIntraDayData_ok (env : FetchEnv) (dto : StockDataRetrievalJobDto)
    (jobId : Option Int) (w : World) (bars : List StockDataBar)
    (h : env.intraDayOutcome = FetchOutcome.ok bars) :
    retrieveIntraDayData env dto jobId w =
      (Except.ok ⟨some (intraOkRow dto jobId bars)⟩,
        { rows := intraOkRow dto jobId bars :: w.rows,
          updateCalls := intraOkRow dto jobId bars :: w.updateCalls,
          fetchCalls := ⟨FetchKind.intraday, intraDayUrl dto⟩ :: w.fetchCalls,
          saveCalls := ⟨dto.symbol, dto.exchange, dto.interval, bars⟩ :: w.saveCalls,
          logs := (if env.saveOk then "AlphaVantageService : saveIntraDayDataToDb: success"
                   else "AlphaVantageService : saveIntraDayDataToDb: failed") :: w.logs }) := by
  simp only [retrieveIntraDayData, h, saveStockDataToDb, logLine, updateProxyJobLog,
    findProxyJobLogById, intraOkRow, dataSizeMsg]
  split_ifs <;> simp [List.find?_cons_of_pos]

/-- Characterization of a failed intraday retrieval: the classified
`HttpException` is re-raised, and the world gains one fetch attempt and one
ledger update recording the URL, the classified status and the error text. -/
lemma retrieveIntraDayData_err (env : FetchEnv) (dto : StockDataRetrievalJobDto)
    (jobId : Option Int) (w : World) (e : String)
    (h : env.intraDayOutcome = FetchOutcome.err e) :
    retrieveIntraDayData env dto jobId w =
      (Except.error (ThrownError.http e (errCode e)),
        { rows := intraErrRow dto jobId e :: w.rows,
          updateCalls := intraErrRow dto jobId e :: w.updateCalls,
          fetchCalls := ⟨FetchKind.intraday, intraDayUrl dto⟩ :: w.fetchCalls,
          saveCalls := w.saveCalls,
          logs := w.logs }) := by
  simp only [retrieveIntraDayData, h, updateProxyJobLog, intraErrRow, errCode]
  split_ifs <;> rfl

/-- Characterization of a successful daily retrieval, mirror of the
intraday case. -/
lemma retrieveDailyData_ok (env : FetchEnv) (dto : StockDataRetrievalJobDto)
    (jobId : Option Int) (w : World) (bars : List StockDataBar)
    (h : env.dailyOutcome = FetchOutcome.ok bars) :
    retrieveDailyData env dto jobId w =
      (Except.ok ⟨some (dailyOkRow dto jobId bars)⟩,
        { rows := dailyOkRow dto jobId bars :: w.rows,
          updateCalls := dailyOkRow dto jobId bars :: w.updateCalls,
          fetchCalls := ⟨FetchKind.daily, dailyUrl dto⟩ :: w.fetchCalls,
          saveCalls := ⟨dto.symbol, dto.exchange, dto.interval, bars⟩ :: w.saveCalls,
          logs := (if env.saveOk then "AlphaVantageService : saveDailyDataToDb: success"
                   else "AlphaVantageService : saveDailyDataToDb: failed") :: w.logs }) := by
  simp only [retrieveDailyData, h, saveStockDataToDb, logLine, updateProxyJobLog,
    findProxyJobLogById, dailyOkRow, dataSizeMsg]
  split_ifs <;> simp [List.find?_cons_of_pos]

/-- Characterization of a failed daily retrieval, mirror of the intraday
case. -/
lemma retrieveDailyData_err (env : FetchEnv) (dto : StockDataRetrievalJobDto)
    (jobId : Option Int) (w : World) (e : String)
    (h : env.dailyOutcome = FetchOutcome.err e) :
    retrieveDailyData env dto jobId w =
      (Except.error (ThrownError.http e (errCode e)),
        { rows := dailyErrRow dto jobId e :: w.rows,
          updateCalls := dailyErrRow dto jobId e :: w.updateCalls,
          fetchCalls := ⟨FetchKind.daily, dailyUrl dto⟩ :: w.fetchCalls,
          saveCalls := w.saveCalls,
          logs := w.logs }) := by
  simp only [retrieveDailyData, h, updateProxyJobLog, dailyErrRow, errCode]
  split_ifs <;> rfl

/-- The intraday retrieval always records exactly one fetch attempt. -/
lemma retrieveIntraDayData_fetchCalls (env : FetchEnv)
    (dto : StockDataRetrievalJobDto) (jobId : Option Int) (w : World) :
    (retrieveIntraDayData env dto jobId w).2.fetchCalls
      = ⟨FetchKind.intraday, intraDayUrl dto⟩ :: w.fetchCalls := by
  cases h : env.intraDayOutcome with
  | ok bars => rw [retrieveIntraDayData_ok env dto jobId w bars h]
  | err e => rw [retrieveIntraDayData_err env dto jobId w e h]

/-- The daily retrieval always records exactly one fetch attempt. -/
lemma retrieveDailyData_fetchCalls (env : FetchEnv)
    (dto : StockDataRetrievalJobDto) (jobId : Option Int) (w : World) :
    (retrieveDailyData env dto jobId w).2.fetchCalls
      = ⟨FetchKind.daily, dailyUrl dto⟩ :: w.fetchCalls := by
  cases h : env.dailyOutcome with
  | ok bars => rw [retrieveDailyData_ok env dto jobId w bars h]
  | err e => rw [retrieveDailyData_err env dto jobId w e h]

/-- C1: for every request, `retrieveStockData` routes to a fetch path (an
external fetch is attempted) exactly when the spec's admissibility predicate
holds — the exchange is supported and the interval is `ONE_DAY` with daily
bars supported (which they are for this adapter) or a supported intraday
interval — and every inadmissible request is rejected with a
caller-attributable error rather than silently ignored. -/
theorem retrieveStockData_admissibility (env : FetchEnv) (cfg : IDataProxyConfig)
    (dto : StockDataRetrievalJobDto) (jobId : Option Int) (w : World)
    (hdaily : cfg.dailySupported = true) :
    ((retrieveStockData env cfg dto jobId w).2.fetchCalls ≠ w.fetchCalls ↔
      is_admissible cfg dto = true) ∧
    (is_admissible cfg dto = false →
      rejectedWithClientError (retrieveStockData env cfg dto jobId w).1 = true) := by
  unfold retrieveStockData is_admissible
  split_ifs with hx hone hintr
  · constructor
    · constructor
      · intro hne
        simp [hx, hone, hdaily]
      · intro hadm
        rw [retrieveDailyData_fetchCalls]
        exact List.cons_ne_self _ _
    · intro hfalse
      simp [hx, hone, hdaily] at hfalse
  · constructor
    · constructor
      · intro hne
        simp [hx, hintr]
      · intro hadm
        rw [retrieveIntraDayData_fetchCalls]
        exact List.cons_ne_self _ _
    · intro hfalse
      simp [hx, hintr] at hfalse
  · constructor
    · constructor
      · intro hne
        exact absurd rfl hne
      · intro hadm
        exfalso
        simp [hx, hone, hintr] at hadm
    · intro hfalse
      exact rejectedWithClientError_plain _
  · constructor
    · constructor
      · intro hne
        exact absurd rfl hne
      · intro hadm
        exfalso
        simp [hx] at hadm
    · intro hfalse
      exact rejectedWithClientError_plain _

/-- C1 witness: for a daily-supporting descriptor over the NSE exchange, a
request for an unlisted interval on NSE is inadmissible and is rejected with
a caller-attributable error, and attempts no fetch. -/
theorem retrieveStockData_admissibility_witness :
    (¬((retrieveStockData sampleEnvOk sampleCfg ⟨"AAPL", "NSE", 7⟩ none w0).2.fetchCalls
        ≠ w0.fetchCalls) ∧
      rejectedWithClientError
        (retrieveStockData sampleEnvOk sampleCfg ⟨"AAPL", "NSE", 7⟩ none w0).1 = true) := by
  have h := retrieveStockData_admissibility sampleEnvOk sampleCfg ⟨"AAPL", "NSE", 7⟩ none w0
    (by decide)
  refine ⟨fun hne => ?_, h.2 (by decide)⟩
  have := h.1.mp hne
  simp [is_admissible, sampleCfg, optIncludes, IntervalEnum.ONE_DAY] at this

/-- C10: the exchange check precedes the interval check: a request whose
exchange is unsupported and whose interval is neither `ONE_DAY` nor a
supported intraday interval is rejected with the invalid-exchange error, the
interval never examined, and the world is untouched. -/
theorem retrieveStockData_exchange_check_first (env : FetchEnv)
    (cfg : IDataProxyConfig) (dto : StockDataRetrievalJobDto)
    (jobId : Option Int) (w : World)
    (hx : optIncludes cfg.openExchanges dto.exchange = false)
    (hone : dto.interval ≠ IntervalEnum.ONE_DAY)
    (hintr : optIncludes cfg.intraDayIntervals dto.interval = false) :
    (retrieveStockData env cfg dto jobId w).1
        = Except.error (ThrownError.plain (invalidExchangeMsg dto.exchange)) ∧
    (retrieveStockData env cfg dto jobId w).2 = w := by
  rw [retrieveStockData]
  simp [hx]

/-- C10 witness: a request with an unsupported exchange and an unsupported
interval is rejected with the invalid-exchange error. -/
theorem retrieveStockData_exchange_check_first_witness :
    (retrieveStockData sampleEnvOk sampleCfg ⟨"AAPL", "NYSE", 7⟩ none w0).1
        = Except.error (ThrownError.plain (invalidExchangeMsg "NYSE")) ∧
    (retrieveStockData sampleEnvOk sampleCfg ⟨"AAPL", "NYSE", 7⟩ none w0).2 = w0 :=
  retrieveStockData_exchange_check_first sampleEnvOk sampleCfg ⟨"AAPL", "NYSE", 7⟩ none w0
    (by decide) (by decide) (by decide)

/-- A sample environment whose vendor calls fail with a client-marked error. -/
def sampleEnvErr : FetchEnv :=
  ⟨FetchOutcome.err "Error: bad symbol", FetchOutcome.err "Error: bad symbol", true, true⟩

/-- C5: a failed external fetch, on either retrieval path, is classified by
the `Error:` text marker into exactly one of `BAD_REQUEST` (client) or
`INTERNAL_SERVER_ERROR` (provider); the ledger update records the computed
URL, the classified status and the error text, and the re-raised
`HttpException` carries the same classification. -/
theorem retrieve_fetch_failure_classified (env : FetchEnv)
    (dto : StockDataRetrievalJobDto) (jobId : Option Int) (w : World) (e : String)
    (hi : env.intraDayOutcome = FetchOutcome.err e)
    (hd : env.dailyOutcome = FetchOutcome.err e) :
    ((retrieveIntraDayData env dto jobId w).1
        = Except.error (ThrownError.http e (errCode e))) ∧
    ((retrieveIntraDayData env dto jobId w).2.updateCalls
        = intraErrRow dto jobId e :: w.updateCalls) ∧
    ((retrieveDailyData env dto jobId w).1
        = Except.error (ThrownError.http e (errCode e))) ∧
    ((retrieveDailyData env dto jobId w).2.updateCalls
        = dailyErrRow dto jobId e :: w.updateCalls) ∧
    (errCode e = HttpStatus.BAD_REQUEST ↔ jsStartsWith e "Error:" = true) ∧
    (errCode e = HttpStatus.INTERNAL_SERVER_ERROR ↔ jsStartsWith e "Error:" = false) ∧
    (intraErrRow dto jobId e).url = intraDayUrl dto ∧
    (intraErrRow dto jobId e).message = e ∧
    (intraErrRow dto jobId e).statusCode = some (errCode e) ∧
    (dailyErrRow dto jobId e).url = dailyUrl dto ∧
    (dailyErrRow dto jobId e).message = e ∧
    (dailyErrRow dto jobId e).statusCode = some (errCode e) := by
  rw [retrieveIntraDayData_err env dto jobId w e hi,
    retrieveDailyData_err env dto jobId w e hd]
  refine ⟨rfl, rfl, rfl, rfl, ?_, ?_, rfl, rfl, rfl, rfl, rfl, rfl⟩ <;>
    unfold errCode <;> split_ifs with hm <;>
      simp [hm, HttpStatus.BAD_REQUEST, HttpStatus.INTERNAL_SERVER_ERROR]

/-- C5 witness: a fetch failure whose text carries the `Error:` marker is
classified `BAD_REQUEST` on both paths, recorded with the computed URL and
the error text, and re-raised with the same status. -/
theorem retrieve_fetch_failure_classified_witness :
    ((retrieveIntraDayData sampleEnvErr sampleDto none w0).1
        = Except.error (ThrownError.http "Error: bad symbol" (errCode "Error: bad symbol"))) ∧
    ((retrieveIntraDayData sampleEnvErr sampleDto none w0).2.updateCalls
        = intraErrRow sampleDto none "Error: bad symbol" :: w0.updateCalls) ∧
    ((retrieveDailyData sampleEnvErr sampleDto none w0).1
        = Except.error (ThrownError.http "Error: bad symbol" (errCode "Error: bad symbol"))) ∧
    ((retrieveDailyData sampleEnvErr sampleDto none w0).2.updateCalls
        = dailyErrRow sampleDto none "Error: bad symbol" :: w0.updateCalls) ∧
    (errCode "Error: bad symbol" = HttpStatus.BAD_REQUEST ↔
      jsStartsWith "Error: bad symbol" "Error:" = true) ∧
    (errCode "Error: bad symbol" = HttpStatus.INTERNAL_SERVER_ERROR ↔
      jsStartsWith "Error: bad symbol" "Error:" = false) ∧
    (intraErrRow sampleDto none "Error: bad symbol").url = intraDayUrl sampleDto ∧
    (intraErrRow sampleDto none "Error: bad symbol").message = "Error: bad symbol" ∧
    (intraErrRow sampleDto none "Error: bad symbol").statusCode
        = some (errCode "Error: bad symbol") ∧
    (dailyErrRow sampleDto none "Error: bad symbol").url = dailyUrl sampleDto ∧
    (dailyErrRow sampleDto none "Error: bad symbol").message = "Error: bad symbol" ∧
    (dailyErrRow sampleDto none "Error: bad symbol").statusCode
        = some (errCode "Error: bad symbol") :=
  retrieve_fetch_failure_classified sampleEnvErr sampleDto none w0 "Error: bad symbol"
    rfl rfl

/-- C6: a successful external fetch, on either retrieval path, finalizes the
ledger with the `OK` status and a message carrying the count of bars
fetched, schedules one bar-save attempt, and the save outcome is invisible
to the caller: flipping the save outcome changes neither the returned
result nor the ledger rows nor the recorded updates. -/
theorem retrieve_fetch_success_persistence (env : FetchEnv)
    (dto : StockDataRetrievalJobDto) (jobId : Option Int) (w : World)
    (bars : List StockDataBar) (b : Bool)
    (hi : env.intraDayOutcome = FetchOutcome.ok bars)
    (hd : env.dailyOutcome = FetchOutcome.ok bars) :
    ((retrieveIntraDayData env dto jobId w).1
        = Except.ok ⟨some (intraOkRow dto jobId bars)⟩) ∧
    ((retrieveIntraDayData env dto jobId w).2.updateCalls
        = intraOkRow dto jobId bars :: w.updateCalls) ∧
    ((retrieveIntraDayData env dto jobId w).2.saveCalls
        = SaveCall.mk dto.symbol dto.exchange dto.interval bars :: w.saveCalls) ∧
    (intraOkRow dto jobId bars).statusCode = some HttpStatus.OK ∧
    (intraOkRow dto jobId bars).message = "DataSize=" ++ toString bars.length ∧
    ((retrieveIntraDayData { env with saveOk := b } dto jobId w).1
        = (retrieveIntraDayData env dto jobId w).1) ∧
    ((retrieveIntraDayData { env with saveOk := b } dto jobId w).2.updateCalls
        = (retrieveIntraDayData env dto jobId w).2.updateCalls) ∧
    ((retrieveIntraDayData { env with saveOk := b } dto jobId w).2.rows
        = (retrieveIntraDayData env dto jobId w).2.rows) ∧
    ((retrieveDailyData env dto jobId w).1
        = Except.ok ⟨some (dailyOkRow dto jobId bars)⟩) ∧
    ((retrieveDailyData env dto jobId w).2.updateCalls
        = dailyOkRow dto jobId bars :: w.updateCalls) ∧
    ((retrieveDailyData env dto jobId w).2.saveCalls
        = SaveCall.mk dto.symbol dto.exchange dto.interval bars :: w.saveCalls) ∧
    (dailyOkRow dto jobId bars).statusCode = some HttpStatus.OK ∧
    (dailyOkRow dto jobId bars).message = "DataSize=" ++ toString bars.length ∧
    ((retrieveDailyData { env with saveOk := b } dto jobId w).1
        = (retrieveDailyData env dto jobId w).1) ∧
    ((retrieveDailyData { env with saveOk := b } dto jobId w).2.updateCalls
        = (retrieveDailyData env dto jobId w).2.updateCalls) ∧
    ((retrieveDailyData { env with saveOk := b } dto jobId w).2.rows
        = (retrieveDailyData env dto jobId w).2.rows) := by
  have hi2 : ({ env with saveOk := b } : FetchEnv).intraDayOutcome
      = FetchOutcome.ok bars := hi
  have hd2 : ({ env with saveOk := b } : FetchEnv).dailyOutcome
      = FetchOutcome.ok bars := hd
  rw [retrieveIntraDayData_ok env dto jobId w bars hi,
    retrieveIntraDayData_ok { env with saveOk := b } dto jobId w bars hi2,
    retrieveDailyData_ok env dto jobId w bars hd,
    retrieveDailyData_ok { env with saveOk := b } dto jobId w bars hd2]
  exact ⟨rfl, rfl, rfl, rfl, dataSizeMsg_eq bars.length, rfl, rfl, rfl,
    rfl, rfl, rfl, rfl, dataSizeMsg_eq bars.length, rfl, rfl, rfl⟩

/-- C6 witness: a successful fetch of two bars with a failing Bar Store save
still returns success with the `OK` ledger row counting two bars. -/
theorem retrieve_fetch_success_persistence_witness :
    ((retrieveIntraDayData sampleEnvOk sampleDto none w0).1
        = Except.ok ⟨some (intraOkRow sampleDto none sampleBars)⟩) ∧
    ((retrieveIntraDayData { sampleEnvOk with saveOk := false } sampleDto none w0).1
        = (retrieveIntraDayData sampleEnvOk sampleDto none w0).1) ∧
    (intraOkRow sampleDto none sampleBars).statusCode = some HttpStatus.OK := by
  have h := retrieve_fetch_success_persistence sampleEnvOk sampleDto none w0
    sampleBars false rfl rfl
  exact ⟨h.1, h.2.2.2.2.2.1, h.2.2.2.1⟩

/-- C4: every dispatched retrieval — admissibility rejection, fetch success
or fetch failure — performs exactly one terminal ledger update for its job
id: never zero, never more than one. -/
theorem dispatch_exactly_one_finalization (env : FetchEnv)
    (cfg : IDataProxyConfig) (dto : StockDataRetrievalJobDto)
    (jobId : Option Int) (w : World) :
    finalizeCount jobId (dispatch env cfg dto jobId w).2
      = finalizeCount jobId w + 1 := by
  simp only [dispatch, retrieveStockData]
  split_ifs with hx hone hintr
  · cases h : env.dailyOutcome with
    | ok bars =>
        rw [retrieveDailyData_ok env dto jobId _ bars h]
        simp [finalizeCount, createJobRow, dailyOkRow, List.filter_cons]
    | err e =>
        rw [retrieveDailyData_err env dto jobId _ e h]
        simp [isFinalized, findProxyJobLogById, finalizeCount, createJobRow,
          dailyErrRow, List.filter_cons, List.find?_cons_of_pos]
  · cases h : env.intraDayOutcome with
    | ok bars =>
        rw [retrieveIntraDayData_ok env dto jobId _ bars h]
        simp [finalizeCount, createJobRow, intraOkRow, List.filter_cons]
    | err e =>
        rw [retrieveIntraDayData_err env dto jobId _ e h]
        simp [isFinalized, findProxyJobLogById, finalizeCount, createJobRow,
          intraErrRow, List.filter_cons, List.find?_cons_of_pos]
  · simp [isFinalized, findProxyJobLogById, createJobRow, updateProxyJobLog,
      finalizeCount, List.filter_cons, List.find?_cons_of_pos]
  · simp [isFinalized, findProxyJobLogById, createJobRow, updateProxyJobLog,
      finalizeCount, List.filter_cons, List.find?_cons_of_pos]

/-- C3: a request whose exchange is unsupported is rejected with a
caller-attributable error, the ledger row for the job ends finalized with
the client-failure code, and no external fetch is attempted. -/
theorem dispatch_unsupported_exchange (env : FetchEnv)
    (cfg : IDataProxyConfig) (dto : StockDataRetrievalJobDto)
    (jobId : Option Int) (w : World)
    (hx : optIncludes cfg.openExchanges dto.exchange = false) :
    (dispatch env cfg dto jobId w).1.raised
        = some (ThrownError.plain (invalidExchangeMsg dto.exchange)) ∧
    (ThrownError.plain (invalidExchangeMsg dto.exchange)).clientAttributable = true ∧
    (findProxyJobLogById jobId (dispatch env cfg dto jobId w).2).map
        ProxyJobLog.statusCode = some (some HttpStatus.BAD_REQUEST) ∧
    (dispatch env cfg dto jobId w).2.fetchCalls = w.fetchCalls := by
  simp only [dispatch, retrieveStockData]
  simp only [hx, Bool.false_eq_true, if_false]
  refine ⟨?_, ?_, ?_, ?_⟩ <;>
    first
      | trivial
      | exact plain_clientAttributable _
      | simp [isFinalized, findProxyJobLogById, createJobRow, updateProxyJobLog,
          classifyErrorCode, ThrownError.errText, plain_error_marker,
          List.find?_cons_of_pos]

/-- C3 witness: dispatching a `NYSE` one-day request against a descriptor
that does not list `NYSE` raises the invalid-exchange client error,
finalizes the ledger with `BAD_REQUEST`, and attempts no fetch. -/
theorem dispatch_unsupported_exchange_witness :
    (dispatch sampleEnvOk sampleCfg ⟨"AAPL", "NYSE", 1440⟩ none w0).1.raised
        = some (ThrownError.plain (invalidExchangeMsg "NYSE")) ∧
    (ThrownError.plain (invalidExchangeMsg "NYSE")).clientAttributable = true ∧
    (findProxyJobLogById none
        (dispatch sampleEnvOk sampleCfg ⟨"AAPL", "NYSE", 1440⟩ none w0).2).map
      ProxyJobLog.statusCode = some (some HttpStatus.BAD_REQUEST) ∧
    (dispatch sampleEnvOk sampleCfg ⟨"AAPL", "NYSE", 1440⟩ none w0).2.fetchCalls
        = w0.fetchCalls :=
  dispatch_unsupported_exchange sampleEnvOk sampleCfg ⟨"AAPL", "NYSE", 1440⟩ none w0
    (by decide)

/-- C7: on every outcome — success, fetch failure or rejection — the result
view the dispatcher hands back is built from the finalized ledger row read
back by `findProxyJobLogById` on the final ledger state, never from a
separate in-memory value. -/
theorem dispatch_view_from_ledger (env : FetchEnv) (cfg : IDataProxyConfig)
    (dto : StockDataRetrievalJobDto) (jobId : Option Int) (w : World) :
    (dispatch env cfg dto jobId w).1.view
      = ⟨findProxyJobLogById jobId (dispatch env cfg dto jobId w).2⟩ := by
  simp only [dispatch, retrieveStockData]
  split_ifs with hx hone hintr
  · cases h : env.dailyOutcome with
    | ok bars =>
        rw [retrieveDailyData_ok env dto jobId _ bars h]
        simp [findProxyJobLogById, dailyOkRow, List.find?_cons_of_pos]
    | err e =>
        rw [retrieveDailyData_err env dto jobId _ e h]
  · cases h : env.intraDayOutcome with
    | ok bars =>
        rw [retrieveIntraDayData_ok env dto jobId _ bars h]
        simp [findProxyJobLogById, intraOkRow, List.find?_cons_of_pos]
    | err e =>
        rw [retrieveIntraDayData_err env dto jobId _ e h]
  · rfl
  · rfl
